import Mathlib

/-!
Shallow embedding of `src/pythonProject3/winnetka.py` (the `AddressMapper`
class and its helpers).  Python floats are modelled as `Rat`; the claims
settled here do not depend on floating-point rounding.  Wall-clock effects
(`time.sleep`, `tqdm` progress, `print`) are not modelled: they do not affect
the returned data.  The external HTTP service reached by `requests.get` is
modelled as a function from the queried address to a `ServerBehavior`; the
API key only enters the request parameters, so a fixed-key run is a fixed
such function.
-/

deriving instance DecidableEq for Except

namespace Winnetka

/-- Python's built-in `abs` on a rational value. -/
def pyAbs (x : Rat) : Rat := if x < 0 then -x else x

/-- The dict returned by `AddressMapper.geocode_address` on success:
`{'address': full_address, 'lat': float(data[0]['lat']), 'lon': float(data[0]['lon'])}`. -/
structure GeocodeResult where
  address : String
  lat : Rat
  lon : Rat
  deriving DecidableEq, Repr

/-- What the external geocoding service does for one request: either an HTTP
response with a status code and a JSON list of candidates (each contributing
its `lat`/`lon` fields), or `requests.get` raising a `RequestException`. -/
inductive ServerBehavior
  | reply (status : Nat) (candidates : List (Rat × Rat))
  | connectionError (msg : String)
  deriving DecidableEq, Repr

/-- Outcome of one `geocode_address` call: the returned value (`None` is
`none`), the `self.interrupted` flag afterwards, and whether a network
request was actually issued. -/
structure GeocodeStep where
  result : Option GeocodeResult
  interrupted : Bool
  networkCall : Bool
  deriving DecidableEq, Repr

/-- `AddressMapper.geocode_address`.  Paths, in source order:
the entry check `if self.interrupted: return None` (no request issued);
`requests.get` raising (caught as `RequestException`; the
`"Too Many Requests"` substring test only adds a `time.sleep(5)`);
`status_code == 401` (prints, sets `self.interrupted = True`, returns `None`);
`response.raise_for_status()` raising `HTTPError` for 4xx/5xx (caught as
`RequestException`, again only delay plus `None`);
an empty candidate list (`data[0]` raises `IndexError`, caught by the generic
`except Exception`, returns `None`); and the success path taking the first
candidate. -/
def geocode_address (service : String → ServerBehavior) (interrupted : Bool)
    (full_address : String) : GeocodeStep :=
  if interrupted then ⟨none, interrupted, false⟩
  else
    match service full_address with
    | .connectionError _ => ⟨none, interrupted, true⟩
    | .reply status candidates =>
      if status = 401 then ⟨none, true, true⟩
      else if 400 ≤ status ∧ status < 600 then ⟨none, interrupted, true⟩
      else
        match candidates with
        | [] => ⟨none, interrupted, true⟩
        | (la, lo) :: _ => ⟨some ⟨full_address, la, lo⟩, interrupted, true⟩

/-- State produced by the `batch_geocode` loop: the accumulated `results`
list, the `self.interrupted` flag, and the trace of addresses for which a
network request was issued. -/
structure BatchState where
  results : List GeocodeResult
  interrupted : Bool
  calls : List String
  deriving DecidableEq, Repr

/-- The `for address in addresses` loop of `AddressMapper.batch_geocode`:
`if self.interrupted: break`, then `result = self.geocode_address(address)`,
then `if result: results.append(result)`. -/
def batchLoop (service : String → ServerBehavior) :
    List String → Bool → BatchState
  | [], interrupted => ⟨[], interrupted, []⟩
  | a :: rest, interrupted =>
    if interrupted then ⟨[], interrupted, []⟩
    else
      let step := geocode_address service interrupted a
      let s := batchLoop service rest step.interrupted
      ⟨(match step.result with
         | some r => r :: s.results
         | none => s.results),
       s.interrupted,
       (if step.networkCall then a :: s.calls else s.calls)⟩

/-- `AddressMapper.batch_geocode`.  The constructor initialises
`self.interrupted = False`, so a fresh batch starts with the flag down. -/
def batch_geocode (service : String → ServerBehavior)
    (addresses : List String) : BatchState :=
  batchLoop service addresses false

/-- Python exceptions raised by the map-composition code, plus the
`DegeneratePolygon` error named by the specification's error taxonomy.
The source never raises `DegeneratePolygon`; it is listed so that statements
can compare what the code raises against what the specification names. -/
inductive PyError
  | ValueError (msg : String)
  | ZeroDivisionError
  | IndexError
  | DegeneratePolygon
  deriving DecidableEq, Repr

/-- The specification's `EmptyInput` error is, in the source, the
`ValueError("No geocoded data provided")` raised by `create_map`. -/
def EmptyInput : PyError := .ValueError "No geocoded data provided"

/-- The accumulator loop of `calculate_centroid` (nested in
`AddressMapper.add_polygon`): for `i in range(len(coords) - 1)`, i.e. over
consecutive vertex pairs, accumulate
`cross = lat1*lon2 - lat2*lon1`, `area += cross`,
`cx += (lat1+lat2)*cross`, `cy += (lon1+lon2)*cross`.
Returns `(area, cx, cy)` before the final divisions. -/
def centroidAccum (coords : List (Rat × Rat)) : Rat × Rat × Rat :=
  (coords.zip coords.tail).foldl
    (fun acc e =>
      match acc, e with
      | (area, cx, cy), ((lat1, lon1), (lat2, lon2)) =>
        (area + (lat1 * lon2 - lat2 * lon1),
         cx + (lat1 + lat2) * (lat1 * lon2 - lat2 * lon1),
         cy + (lon1 + lon2) * (lat1 * lon2 - lat2 * lon1)))
    (0, 0, 0)

/-- `calculate_centroid`: `area /= 2`, then `cx = cx / (6 * area)`,
`cy = cy / (6 * area)`, returning `abs(cx), abs(cy)`.  When the signed area
is zero the divisions raise Python's `ZeroDivisionError`. -/
def calculate_centroid (coords : List (Rat × Rat)) : Except PyError (Rat × Rat) :=
  let area := (centroidAccum coords).1 / 2
  if area = 0 then .error .ZeroDivisionError
  else
    .ok (pyAbs ((centroidAccum coords).2.1 / (6 * area)),
         pyAbs ((centroidAccum coords).2.2 / (6 * area)))

/-- One contact dict: the keys `'First Name:'`, `'Last Name:'`, `'Address:'`,
`'Phone:'`, `'Email:'`, each possibly absent (`dict.get` with a default). -/
structure ContactInfo where
  first_name : Option String
  last_name : Option String
  address : Option String
  phone : Option String
  email : Option String
  deriving DecidableEq, Repr

/-- One polygon dict handed to `create_map`: `polygon['coordinates']` plus the
optional keys read with `polygon.get(...)`. -/
structure Polygon where
  coordinates : List (Rat × Rat)
  color : Option String
  fill_color : Option String
  fill_opacity : Option Rat
  popup_text : Option String
  deriving DecidableEq, Repr

/-- One entry of the composed map, in the order it is added to the folium
`Map` object: a `folium.Polygon`, the centroid label `folium.Marker` created
by `add_polygon`, or a contact `folium.Marker` added to the `MarkerCluster`. -/
inductive MapElement
  | polygon (locations : List (Rat × Rat)) (color fill_color : String)
      (fill_opacity : Rat) (popup : Option String)
  | label (location : Rat × Rat) (html : String)
  | marker (location : Rat × Rat) (popup : String) (tooltip : String)
  deriving DecidableEq, Repr

/-- The composed map: base-map viewport plus the elements in the order they
were added. -/
structure MapArtifact where
  location : Rat × Rat
  zoom_start : Nat
  elements : List MapElement
  deriving DecidableEq, Repr

/-- `winnetka_center = [42.1080, -87.7352]`. -/
def winnetka_center : Rat × Rat := (42108 / 1000, -877352 / 10000)

/-- The `label_html` f-string of `add_polygon`, with the interpolated `color`
and `popup_text`; the surrounding indentation whitespace of the Python
source is elided. -/
def label_html (color popup_text : String) : String :=
  "<div style=\"color: " ++ color ++
    "; font-weight: bold; font-size: 16px; text-align: center; text-shadow: 2px 2px 2px white, -2px -2px 2px white, 2px -2px 2px white, -2px 2px 2px white;\">"
    ++ popup_text ++ "</div>"

/-- The `popup_text` f-string built for each marker in `create_map`, with the
`info.get(key, 'N/A')` lookups; indentation whitespace elided. -/
def popup_html (info : ContactInfo) : String :=
  "<div style=\"min-width: 300px;\"><h4 style=\"margin-bottom: 10px;\">Contact Information</h4><p><strong>First Name:</strong> "
    ++ info.first_name.getD "N/A"
    ++ "</p><p><strong>Last Name:</strong> " ++ info.last_name.getD "N/A"
    ++ "</p><p><strong>Address:</strong> " ++ info.address.getD "N/A"
    ++ "</p><p><strong>Phone:</strong> " ++ info.phone.getD "N/A"
    ++ "</p><p><strong>Email:</strong> " ++ info.email.getD "N/A"
    ++ "</p></div>"

/-- The marker tooltip:
`f"{info.get('First Name:', '')} {info.get('Last Name:', '')}"`. -/
def tooltip_text (info : ContactInfo) : String :=
  info.first_name.getD "" ++ " " ++ info.last_name.getD ""

/-- `AddressMapper.add_polygon`: adds the `folium.Polygon`, then
unconditionally computes the centroid (so a degenerate ring raises even when
no label is wanted), then adds the centroid label marker when `popup_text`
is set. -/
def add_polygon (coordinates : List (Rat × Rat)) (color fill_color : String)
    (fill_opacity : Rat) (popup_text : Option String) :
    Except PyError (List MapElement) :=
  let poly := MapElement.polygon coordinates color fill_color fill_opacity popup_text
  match calculate_centroid coordinates with
  | .error e => .error e
  | .ok c =>
    match popup_text with
    | some txt => .ok [poly, .label c (label_html color txt)]
    | none => .ok [poly]

/-- The `for polygon in polygons` loop of `create_map`, reading each dict
with the defaults `polygon.get('color', 'red')`,
`polygon.get('fill_color', 'red')`, `polygon.get('fill_opacity', 0.2)`,
`polygon.get('popup_text')`. -/
def buildPolygons : List Polygon → Except PyError (List MapElement)
  | [] => .ok []
  | p :: rest =>
    match add_polygon p.coordinates (p.color.getD "red") (p.fill_color.getD "red")
        (p.fill_opacity.getD (1 / 5)) p.popup_text with
    | .error e => .error e
    | .ok es =>
      match buildPolygons rest with
      | .error e => .error e
      | .ok more => .ok (es ++ more)

/-- The polygon phase of `create_map`: `if polygons:` skips a `None` (or
empty) argument; otherwise every polygon is added in order. -/
def polygonElems : Option (List Polygon) → Except PyError (List MapElement)
  | none => .ok []
  | some ps => buildPolygons ps

/-- The marker built for position `i`:
`folium.Marker([point['lat'], point['lon']], popup=..., tooltip=...)`. -/
def mkMarker (point : GeocodeResult) (info : ContactInfo) : MapElement :=
  .marker (point.lat, point.lon) (popup_html info) (tooltip_text info)

/-- The `for i, point in enumerate(geocoded_data)` loop of `create_map`:
`info = contact_info[i]` raises `IndexError` when `i` is out of range,
otherwise the marker for `(point, info)` joins the cluster. -/
def buildMarkers (contact_info : List ContactInfo) :
    List GeocodeResult → Nat → Except PyError (List MapElement)
  | [], _ => .ok []
  | point :: rest, i =>
    match contact_info[i]? with
    | none => .error .IndexError
    | some info =>
      match buildMarkers contact_info rest (i + 1) with
      | .error e => .error e
      | .ok ms => .ok (mkMarker point info :: ms)

/-- `AddressMapper.create_map`: raises
`ValueError("No geocoded data provided")` on an empty (falsy)
`geocoded_data`, builds the base map at `winnetka_center` with
`zoom_start=14`, adds all polygons first, then the clustered contact
markers. -/
def create_map (geocoded_data : List GeocodeResult)
    (contact_info : List ContactInfo) (polygons : Option (List Polygon)) :
    Except PyError MapArtifact :=
  if geocoded_data.isEmpty then .error (.ValueError "No geocoded data provided")
  else
    match polygonElems polygons with
    | .error e => .error e
    | .ok polyElems =>
      match buildMarkers contact_info geocoded_data 0 with
      | .error e => .error e
      | .ok markerElems => .ok ⟨winnetka_center, 14, polyElems ++ markerElems⟩

/-- Discriminates the contact markers (added to the `MarkerCluster`) from the
polygon-phase elements (polygons and their centroid labels). -/
def isMarkerElement : MapElement → Bool
  | .marker _ _ _ => true
  | _ => false

/-- The layering invariant on an element list: once a contact marker appears,
everything after it is also a contact marker, i.e. the whole polygon phase
precedes the whole marker phase. -/
def layeringOK : List MapElement → Bool
  | [] => true
  | e :: rest => if isMarkerElement e then rest.all isMarkerElement else layeringOK rest

/-- The layering invariant lifted to a possibly-failing composition: an
error produces no artifact, so only a produced artifact is constrained. -/
def artifactLayeringOK : Except PyError MapArtifact → Bool
  | .ok art => layeringOK art.elements
  | .error _ => true

theorem geocode_address_success (service : String → ServerBehavior) (a : String)
    (la lo : Rat) (cs : List (Rat × Rat)) (h : service a = .reply 200 ((la, lo) :: cs)) :
    geocode_address service false a = ⟨some ⟨a, la, lo⟩, false, true⟩ := by
  simp [geocode_address, h]

theorem batchLoop_interrupted (service : String → ServerBehavior) (addresses : List String) :
    batchLoop service addresses true = ⟨[], true, []⟩ := by
  cases addresses with
  | nil => rfl
  | cons a rest => rfl

theorem batchLoop_append_success (service : String → ServerBehavior) (f g : String → Rat)
    (pre xs : List String) (h : ∀ a ∈ pre, service a = .reply 200 [(f a, g a)]) :
    batchLoop service (pre ++ xs) false =
      ⟨pre.map (fun a => ⟨a, f a, g a⟩) ++ (batchLoop service xs false).results,
       (batchLoop service xs false).interrupted,
       pre ++ (batchLoop service xs false).calls⟩ := by
  induction pre with
  | nil => simp
  | cons a rest ih =>
    have ha := geocode_address_success service a (f a) (g a) [] (h a (by simp))
    have hr := ih (fun b hb => h b (by simp [hb]))
    simp [batchLoop, ha, hr]

theorem batchLoop_all_success (service : String → ServerBehavior) (f g : String → Rat)
    (addresses : List String) (h : ∀ a ∈ addresses, service a = .reply 200 [(f a, g a)]) :
    batchLoop service addresses false =
      ⟨addresses.map (fun a => ⟨a, f a, g a⟩), false, addresses⟩ := by
  have := batchLoop_append_success service f g addresses [] h
  simpa [batchLoop] using this

/-- C1: with a stub service that succeeds on every address, `batch_geocode`
returns one result per input address, in input order, with the coordinates
the stub returned for that address. -/
theorem batch_geocode_stub_success (service : String → ServerBehavior)
    (stubLat stubLon : String → Rat) (addresses : List String)
    (hne : addresses ≠ [])
    (hstub : ∀ a ∈ addresses, service a = .reply 200 [(stubLat a, stubLon a)]) :
    (batch_geocode service addresses).results
        = addresses.map (fun a => ⟨a, stubLat a, stubLon a⟩)
    ∧ (batch_geocode service addresses).results.length = addresses.length := by
  have h := batchLoop_all_success service stubLat stubLon addresses hstub
  simp [batch_geocode, h]

theorem batch_geocode_stub_success_witness :
    (batch_geocode (fun _ => .reply 200 [(1, 2)]) ["a", "b"]).results
        = [⟨"a", 1, 2⟩, ⟨"b", 1, 2⟩]
    ∧ (batch_geocode (fun _ => .reply 200 [(1, 2)]) ["a", "b"]).results.length = 2 := by
  have h := batch_geocode_stub_success (fun _ => ServerBehavior.reply 200 [(1, 2)])
    (fun _ => 1) (fun _ => 2) ["a", "b"] (by simp) (fun a _ => rfl)
  simpa using h

/-- C2: if the service answers 401 Unauthorized on the third of ten
addresses and succeeds on all others, `batch_geocode` returns exactly the
two results accumulated before that point, issues network calls for the
first three addresses only, and leaves the persistent stop flag set. -/
theorem batch_geocode_unauthorized_stop (service : String → ServerBehavior)
    (a0 a1 a2 : String) (rest : List String)
    (l0 o0 l1 o1 : Rat) (hlen : rest.length = 7)
    (h0 : service a0 = .reply 200 [(l0, o0)])
    (h1 : service a1 = .reply 200 [(l1, o1)])
    (h2 : service a2 = .reply 401 [])
    (hrest : ∀ a ∈ rest, ∃ la lo, service a = .reply 200 [(la, lo)]) :
    (batch_geocode service (a0 :: a1 :: a2 :: rest)).results = [⟨a0, l0, o0⟩, ⟨a1, l1, o1⟩]
    ∧ (batch_geocode service (a0 :: a1 :: a2 :: rest)).calls = [a0, a1, a2]
    ∧ (batch_geocode service (a0 :: a1 :: a2 :: rest)).interrupted = true := by
  have g0 := geocode_address_success service a0 l0 o0 [] h0
  have g1 := geocode_address_success service a1 l1 o1 [] h1
  have g2 : geocode_address service false a2 = ⟨none, true, true⟩ := by
    simp [geocode_address, h2]
  have hstop := batchLoop_interrupted service rest
  simp [batch_geocode, batchLoop, g0, g1, g2, hstop]

def svcC2 : String → ServerBehavior := fun a =>
  if a = "c" then .reply 401 [] else .reply 200 [(5, 6)]

theorem batch_geocode_unauthorized_stop_witness :
    (batch_geocode svcC2 ["a", "b", "c", "d", "e", "f", "g", "h", "i", "j"]).results
        = [⟨"a", 5, 6⟩, ⟨"b", 5, 6⟩]
    ∧ (batch_geocode svcC2 ["a", "b", "c", "d", "e", "f", "g", "h", "i", "j"]).calls
        = ["a", "b", "c"]
    ∧ (batch_geocode svcC2 ["a", "b", "c", "d", "e", "f", "g", "h", "i", "j"]).interrupted
        = true := by
  have h := batch_geocode_unauthorized_stop svcC2 "a" "b" "c"
    ["d", "e", "f", "g", "h", "i", "j"] 5 6 5 6 rfl (by decide) (by decide) (by decide)
    (by intro a ha; refine ⟨5, 6, ?_⟩; fin_cases ha <;> decide)
  exact h

/-- C5: if the service is rate-limited on one address and succeeds on every
other, `batch_geocode` skips only that address (it is absent from the
results and not retried), while every other address, including all later
ones, is still called and contributes its result in order. -/
theorem batch_geocode_rate_limited_skip (service : String → ServerBehavior)
    (stubLat stubLon : String → Rat) (pre post : List String) (bad : String)
    (hbad : service bad = .reply 429 [])
    (hok : ∀ a ∈ pre ++ post, service a = .reply 200 [(stubLat a, stubLon a)])
    (hnotin : bad ∉ pre ++ post) :
    (batch_geocode service (pre ++ bad :: post)).results
        = (pre ++ post).map (fun a => ⟨a, stubLat a, stubLon a⟩)
    ∧ (∀ r ∈ (batch_geocode service (pre ++ bad :: post)).results, r.address ≠ bad)
    ∧ (batch_geocode service (pre ++ bad :: post)).calls = pre ++ bad :: post := by
  have hpre : ∀ a ∈ pre, service a = .reply 200 [(stubLat a, stubLon a)] :=
    fun a ha => hok a (by simp [ha])
  have hpost : ∀ a ∈ post, service a = .reply 200 [(stubLat a, stubLon a)] :=
    fun a ha => hok a (by simp [ha])
  have gbad : geocode_address service false bad = ⟨none, false, true⟩ := by
    simp [geocode_address, hbad]
  have hposteq := batchLoop_all_success service stubLat stubLon post hpost
  have hmid : batchLoop service (bad :: post) false =
      ⟨post.map (fun a => ⟨a, stubLat a, stubLon a⟩), false, bad :: post⟩ := by
    simp [batchLoop, gbad, hposteq]
  have happ := batchLoop_append_success service stubLat stubLon pre (bad :: post) hpre
  rw [hmid] at happ
  have hres : (batch_geocode service (pre ++ bad :: post)).results
      = (pre ++ post).map (fun a => ⟨a, stubLat a, stubLon a⟩) := by
    simp [batch_geocode, happ]
  refine ⟨hres, ?_, ?_⟩
  · intro r hr
    rw [hres] at hr
    simp only [List.mem_map] at hr
    obtain ⟨a, ha, rfl⟩ := hr
    intro hcontra
    exact hnotin (hcontra ▸ ha)
  · simp [batch_geocode, happ]

def svcC5 : String → ServerBehavior := fun a =>
  if a = "b" then .reply 429 [] else .reply 200 [(7, 8)]

theorem batch_geocode_rate_limited_skip_witness :
    (batch_geocode svcC5 ["a", "b", "c"]).results = [⟨"a", 7, 8⟩, ⟨"c", 7, 8⟩]
    ∧ (∀ r ∈ (batch_geocode svcC5 ["a", "b", "c"]).results, r.address ≠ "b")
    ∧ (batch_geocode svcC5 ["a", "b", "c"]).calls = ["a", "b", "c"] := by
  have h := batch_geocode_rate_limited_skip svcC5 (fun _ => 7) (fun _ => 8)
    ["a"] ["c"] "b" (by decide)
    (by intro a ha; fin_cases ha <;> decide) (by decide)
  simpa using h

theorem geocode_networkCall (service : String → ServerBehavior) (a : String) :
    (geocode_address service false a).networkCall = true := by
  unfold geocode_address
  cases service a with
  | connectionError m => rfl
  | reply status cands =>
    by_cases h1 : status = 401 <;> by_cases h2 : 400 ≤ status ∧ status < 600 <;>
      rcases cands with _ | ⟨⟨la, lo⟩, tl⟩ <;> simp [h1, h2]

theorem batchLoop_no_fatal (service : String → ServerBehavior)
    (addresses : List String)
    (h : ∀ a ∈ addresses, (geocode_address service false a).interrupted = false) :
    batchLoop service addresses false =
      ⟨addresses.filterMap (fun a => (geocode_address service false a).result), false,
       addresses⟩ := by
  induction addresses with
  | nil => rfl
  | cons a rest ih =>
    have ha := h a (by simp)
    have hc := geocode_networkCall service a
    have hr := ih (fun b hb => h b (by simp [hb]))
    simp only [batchLoop, if_neg (by simp : ¬ (false = true)), ha, hc, hr,
      List.filterMap_cons, if_pos rfl]
    cases hres : (geocode_address service false a).result <;> simp [hres]

theorem filterMap_length_lt {α β : Type} (f : α → Option β) (l : List α) (a : α)
    (ha : a ∈ l) (hnone : f a = none) : (l.filterMap f).length < l.length := by
  induction l with
  | nil => cases ha
  | cons b rest ih =>
    rcases List.mem_cons.mp ha with rfl | hmem
    · rw [List.filterMap_cons, hnone]
      exact Nat.lt_succ_of_le (List.length_filterMap_le f rest)
    · rw [List.filterMap_cons]
      cases hfb : f b with
      | none => exact Nat.lt_succ_of_lt (ih hmem)
      | some c => simpa using Nat.succ_lt_succ (ih hmem)

/-- C8: when every per-address outcome is an ordinary success or a non-fatal
failure (no 401, so the stop flag is never set), `batch_geocode` returns
exactly the successful results, as the order-preserving `filterMap` of the
inputs; failures leave no entry behind, so any failure makes the output
strictly shorter than the input. -/
theorem batch_geocode_success_subsequence (service : String → ServerBehavior)
    (addresses : List String)
    (h : ∀ a ∈ addresses, (geocode_address service false a).interrupted = false) :
    (batch_geocode service addresses).results
        = addresses.filterMap (fun a => (geocode_address service false a).result)
    ∧ ((∃ a ∈ addresses, (geocode_address service false a).result = none) →
        (batch_geocode service addresses).results.length < addresses.length) := by
  have heq := batchLoop_no_fatal service addresses h
  have hres : (batch_geocode service addresses).results
      = addresses.filterMap (fun a => (geocode_address service false a).result) := by
    simp [batch_geocode, heq]
  refine ⟨hres, ?_⟩
  rintro ⟨a, ha, hnone⟩
  rw [hres]
  exact filterMap_length_lt _ addresses a ha hnone

def svcC8 : String → ServerBehavior := fun a =>
  if a = "b" then .reply 500 [] else .reply 200 [(3, 4)]

theorem batch_geocode_success_subsequence_witness :
    (batch_geocode svcC8 ["a", "b", "c"]).results
        = ["a", "b", "c"].filterMap (fun a => (geocode_address svcC8 false a).result)
    ∧ ((∃ a ∈ ["a", "b", "c"], (geocode_address svcC8 false a).result = none) →
        (batch_geocode svcC8 ["a", "b", "c"]).results.length < 3) := by
  have h := batch_geocode_success_subsequence svcC8 ["a", "b", "c"] (by decide)
  simpa using h

/-- C9, as claimed, is false: `geocode_address` copies the first candidate's
coordinates verbatim, so an out-of-range payload yields an out-of-range
`GeocodeResult`. -/
theorem geocode_address_range_counterexample :
    (geocode_address (fun _ => .reply 200 [(1000, -200)]) false "1 Main St").result
        = some ⟨"1 Main St", 1000, -200⟩
    ∧ ¬ ((1000 : Rat) ≤ 90) ∧ ¬ ((-180 : Rat) ≤ -200) := by
  refine ⟨by decide, by norm_num, by norm_num⟩

/-- C9 amended: the client performs no range validation; a successful result
satisfies the latitude/longitude invariant exactly when the service's first
candidate does, since the coordinates are taken verbatim. -/
theorem geocode_address_range_amended (service : String → ServerBehavior)
    (interrupted : Bool) (a : String) (la lo : Rat) (cs : List (Rat × Rat))
    (hs : service a = .reply 200 ((la, lo) :: cs))
    (hla : -90 ≤ la ∧ la ≤ 90) (hlo : -180 ≤ lo ∧ lo ≤ 180) :
    ∀ r, (geocode_address service interrupted a).result = some r →
      (-90 ≤ r.lat ∧ r.lat ≤ 90) ∧ (-180 ≤ r.lon ∧ r.lon ≤ 180) := by
  intro r hr
  cases interrupted with
  | true => simp [geocode_address] at hr
  | false =>
    simp [geocode_address, hs] at hr
    rw [← hr]
    exact ⟨hla, hlo⟩

theorem geocode_address_range_amended_witness :
    ((-90 : Rat) ≤ 42 ∧ (42 : Rat) ≤ 90) ∧ ((-180 : Rat) ≤ -87 ∧ (-87 : Rat) ≤ 180) := by
  have h := geocode_address_range_amended (fun _ => .reply 200 [(42, -87)]) false "x"
    42 (-87) [] rfl (by norm_num) (by norm_num) ⟨"x", 42, -87⟩ (by decide)
  exact h

/-- C3, as claimed, is false: on the collinear ring the code hits the raw
division by zero — it raises Python's `ZeroDivisionError`, which is not the
specification's `DegeneratePolygon` error (the code never defines one). -/
theorem calculate_centroid_degenerate_counterexample :
    calculate_centroid [(0, 0), (1, 1), (2, 2), (0, 0)] = .error .ZeroDivisionError
    ∧ (Except.error PyError.ZeroDivisionError : Except PyError (Rat × Rat))
        ≠ .error .DegeneratePolygon := by
  constructor
  · norm_num [calculate_centroid, centroidAccum]
  · decide

/-- C3 amended: on every ring whose accumulated signed area is zero the
centroid computation fails with the division-by-zero error
(`ZeroDivisionError`, not a defined `DegeneratePolygon`); it does not
silently return infinities. -/
theorem calculate_centroid_degenerate_zero_division (coords : List (Rat × Rat))
    (h : (centroidAccum coords).1 = 0) :
    calculate_centroid coords = .error .ZeroDivisionError := by
  unfold calculate_centroid
  simp [h]

theorem calculate_centroid_degenerate_zero_division_witness :
    (centroidAccum [(0, 0), (3, 3), (5, 5), (0, 0)]).1 = 0
    ∧ calculate_centroid [(0, 0), (3, 3), (5, 5), (0, 0)] = .error .ZeroDivisionError := by
  have h0 : (centroidAccum [((0 : Rat), (0 : Rat)), (3, 3), (5, 5), (0, 0)]).1 = 0 := by
    norm_num [centroidAccum]
  exact ⟨h0, calculate_centroid_degenerate_zero_division _ h0⟩

/-- C4: the centroid of the closed square ring is `(1, 1)`, and the same
value results from the same ring listed in the reversed winding order. -/
theorem calculate_centroid_square_winding :
    calculate_centroid [(0, 0), (0, 2), (2, 2), (2, 0), (0, 0)] = .ok (1, 1)
    ∧ calculate_centroid [(0, 0), (2, 0), (2, 2), (0, 2), (0, 0)] = .ok (1, 1)
    ∧ [((0 : Rat), (0 : Rat)), (2, 0), (2, 2), (0, 2), (0, 0)]
        = List.reverse [(0, 0), (0, 2), (2, 2), (2, 0), (0, 0)] := by
  refine ⟨?_, ?_, by norm_num⟩
  · norm_num [calculate_centroid, centroidAccum, pyAbs]
  · norm_num [calculate_centroid, centroidAccum, pyAbs]

/-- C6: composing with an empty points sequence fails with the `EmptyInput`
error (in the source, `ValueError("No geocoded data provided")`), whatever
the contact metadata and polygons are; no artifact is produced. -/
theorem create_map_empty_input (contact_info : List ContactInfo)
    (polygons : Option (List Polygon)) :
    create_map [] contact_info polygons = .error EmptyInput := rfl

theorem add_polygon_no_marker (coords : List (Rat × Rat)) (c fc : String) (fo : Rat)
    (pt : Option String) (es : List MapElement)
    (h : add_polygon coords c fc fo pt = .ok es) :
    ∀ e ∈ es, isMarkerElement e = false := by
  unfold add_polygon at h
  cases hc : calculate_centroid coords with
  | error e => rw [hc] at h; cases h
  | ok c0 =>
    rw [hc] at h
    cases pt with
    | some txt =>
      injection h with h2
      subst h2
      simp [isMarkerElement]
    | none =>
      injection h with h2
      subst h2
      simp [isMarkerElement]

theorem buildPolygons_no_marker (ps : List Polygon) (es : List MapElement)
    (h : buildPolygons ps = .ok es) : ∀ e ∈ es, isMarkerElement e = false := by
  induction ps generalizing es with
  | nil =>
    injection h with h2
    subst h2
    simp
  | cons p rest ih =>
    unfold buildPolygons at h
    cases hp : add_polygon p.coordinates (p.color.getD "red") (p.fill_color.getD "red")
        (p.fill_opacity.getD (1 / 5)) p.popup_text with
    | error e => rw [hp] at h; cases h
    | ok es1 =>
      rw [hp] at h
      cases hrest : buildPolygons rest with
      | error e => rw [hrest] at h; cases h
      | ok more =>
        rw [hrest] at h
        injection h with h2
        subst h2
        intro e he
        rcases List.mem_append.mp he with h1 | h1
        · exact add_polygon_no_marker _ _ _ _ _ _ hp e h1
        · exact ih more hrest e h1

theorem polygonElems_no_marker (polygons : Option (List Polygon)) (es : List MapElement)
    (h : polygonElems polygons = .ok es) : ∀ e ∈ es, isMarkerElement e = false := by
  cases polygons with
  | none =>
    injection h with h2
    subst h2
    simp
  | some ps => exact buildPolygons_no_marker ps es h

theorem buildMarkers_all_marker (contacts : List ContactInfo)
    (pts : List GeocodeResult) (i : Nat) (ms : List MapElement)
    (h : buildMarkers contacts pts i = .ok ms) :
    ∀ e ∈ ms, isMarkerElement e = true := by
  induction pts generalizing i ms with
  | nil =>
    injection h with h2
    subst h2
    simp
  | cons p rest ih =>
    unfold buildMarkers at h
    cases hi : contacts[i]? with
    | none => rw [hi] at h; cases h
    | some info =>
      rw [hi] at h
      cases hrest : buildMarkers contacts rest (i + 1) with
      | error e => rw [hrest] at h; cases h
      | ok more =>
        rw [hrest] at h
        injection h with h2
        subst h2
        intro e he
        rcases List.mem_cons.mp he with rfl | h1
        · rfl
        · exact ih (i + 1) more hrest e h1

theorem layeringOK_append (ps ms : List MapElement)
    (hp : ∀ e ∈ ps, isMarkerElement e = false)
    (hm : ∀ e ∈ ms, isMarkerElement e = true) :
    layeringOK (ps ++ ms) = true := by
  induction ps with
  | nil =>
    cases ms with
    | nil => rfl
    | cons m tl =>
      have h1 : isMarkerElement m = true := hm m (List.mem_cons_self m tl)
      have h2 : tl.all isMarkerElement = true := by
        rw [List.all_eq_true]
        exact fun e he => hm e (List.mem_cons_of_mem m he)
      simp [layeringOK, h1, h2]
  | cons p tl ih =>
    have hp1 : isMarkerElement p = false := hp p (List.mem_cons_self p tl)
    have h2 := ih (fun e he => hp e (List.mem_cons_of_mem p he))
    simp [layeringOK, hp1, h2]

/-- C7: whatever artifact `create_map` produces, every element of the polygon
phase (polygons and their centroid labels) precedes every clustered contact
marker in composition order. -/
theorem create_map_layering (points : List GeocodeResult)
    (contacts : List ContactInfo) (polygons : Option (List Polygon))
    (hne : points ≠ []) :
    artifactLayeringOK (create_map points contacts polygons) = true := by
  unfold create_map
  split
  · rfl
  · cases hpe : polygonElems polygons with
    | error e => simp [artifactLayeringOK]
    | ok pes =>
      cases hbm : buildMarkers contacts points 0 with
      | error e => simp [artifactLayeringOK]
      | ok ms =>
        simp only [artifactLayeringOK]
        exact layeringOK_append pes ms (polygonElems_no_marker polygons pes hpe)
          (buildMarkers_all_marker contacts points 0 ms hbm)

def ptsC7 : List GeocodeResult := [⟨"a", 1, 2⟩, ⟨"b", 3, 4⟩, ⟨"c", 5, 6⟩]

def ctsC7 : List ContactInfo :=
  [⟨some "J", some "D", some "1 Elm", none, none⟩,
   ⟨some "K", none, none, none, none⟩,
   ⟨none, none, none, none, some "k@x.com"⟩]

def pgsC7 : List Polygon :=
  [⟨[(0, 0), (0, 2), (2, 2), (2, 0), (0, 0)], some "blue", none, none, some "Area 1"⟩,
   ⟨[(0, 0), (0, 4), (4, 4), (4, 0), (0, 0)], none, none, none, none⟩]

theorem create_map_layering_witness :
    (create_map ptsC7 ctsC7 (some pgsC7)).isOk = true
    ∧ artifactLayeringOK (create_map ptsC7 ctsC7 (some pgsC7)) = true := by
  constructor
  · norm_num [create_map, ptsC7, ctsC7, pgsC7, polygonElems, buildPolygons, add_polygon,
      calculate_centroid, centroidAccum, pyAbs, buildMarkers, Except.isOk, Except.toBool]
  · exact create_map_layering ptsC7 ctsC7 (some pgsC7) (by simp [ptsC7])

theorem buildMarkers_ok (contacts : List ContactInfo)
    (pts : List GeocodeResult) (i : Nat) (h : i + pts.length ≤ contacts.length) :
    buildMarkers contacts pts i = .ok (List.zipWith mkMarker pts (contacts.drop i)) := by
  induction pts generalizing i with
  | nil => rfl
  | cons p rest ih =>
    have hi : i < contacts.length := by
      simp only [List.length_cons] at h
      omega
    have hsome : contacts[i]? = some contacts[i] := List.getElem?_eq_getElem hi
    have hdrop : contacts.drop i = contacts[i] :: contacts.drop (i + 1) :=
      List.drop_eq_getElem_cons hi
    have hr := ih (i + 1) (by simp only [List.length_cons] at h; omega)
    unfold buildMarkers
    rw [hsome, hr, hdrop]
    rfl

theorem buildMarkers_index_error (contacts : List ContactInfo)
    (pts : List GeocodeResult) (i : Nat)
    (h : contacts.length < i + pts.length) (hne : pts ≠ []) :
    buildMarkers contacts pts i = .error .IndexError := by
  induction pts generalizing i with
  | nil => cases hne rfl
  | cons p rest ih =>
    simp only [List.length_cons] at h
    unfold buildMarkers
    by_cases hi : i < contacts.length
    · have hsome : contacts[i]? = some contacts[i] := List.getElem?_eq_getElem hi
      have hrne : rest ≠ [] := by
        cases rest with
        | nil => simp at h; omega
        | cons x xs => simp
      rw [hsome, ih (i + 1) (by omega) hrne]
    · have hnone : contacts[i]? = none := by
        rw [List.getElem?_eq_none]
        omega
      rw [hnone]

/-- C10: `create_map` pairs the i-th geocoded point with the i-th contact
strictly by index: with at least as many contacts as points it succeeds and
each marker is built from the same-index contact, and with fewer contacts it
fails with `IndexError` and produces no artifact. -/
theorem create_map_index_pairing (points : List GeocodeResult)
    (contacts : List ContactInfo) (polygons : Option (List Polygon))
    (pes : List MapElement) (hne : points ≠ [])
    (hpoly : polygonElems polygons = .ok pes) :
    (points.length ≤ contacts.length →
      create_map points contacts polygons =
        .ok ⟨winnetka_center, 14, pes ++ List.zipWith mkMarker points contacts⟩)
    ∧ (contacts.length < points.length →
      create_map points contacts polygons = .error .IndexError) := by
  have hempty : points.isEmpty = false := by
    cases points with
    | nil => cases hne rfl
    | cons x xs => rfl
  constructor
  · intro hle
    have hm := buildMarkers_ok contacts points 0 (by omega)
    unfold create_map
    rw [if_neg (by simp [hempty]), hpoly, hm]
    simp
  · intro hlt
    have hm := buildMarkers_index_error contacts points 0 (by omega) hne
    unfold create_map
    rw [if_neg (by simp [hempty]), hpoly, hm]

def ctC10 : ContactInfo := ⟨some "Jane", some "Doe", none, none, none⟩

theorem create_map_index_pairing_witness :
    create_map [⟨"a", 1, 2⟩] [ctC10] none
        = .ok ⟨winnetka_center, 14, [mkMarker ⟨"a", 1, 2⟩ ctC10]⟩
    ∧ create_map [⟨"a", 1, 2⟩, ⟨"b", 3, 4⟩] [ctC10] none = .error .IndexError := by
  constructor
  · have h := (create_map_index_pairing [⟨"a", 1, 2⟩] [ctC10] none [] (by simp) rfl).1
      (by simp)
    simpa using h
  · exact (create_map_index_pairing [⟨"a", 1, 2⟩, ⟨"b", 3, 4⟩] [ctC10] none [] (by simp)
      rfl).2 (by simp)

end Winnetka
